import Mathlib

/-!
# Verification of `soci-test` (src/src/soci-test.cpp)

A shallow embedding of the `soci-test` command-line program: option
parsing with `getopt_long`, the `usage` function, the interactive insert
loop over the `exam` table, and the tabular select reporter.  The database
is modelled as a list of `exam_t` records; the console streams are
modelled explicitly so that claims about which stream receives which
message can be stated.
-/

namespace SociTest

/-- The two console output streams used by the program. -/
inductive OutStream where
  | stdout
  | stderr
deriving DecidableEq, Repr

/-- Options as returned by `getopt_long` over the option string `"i:d:hs"`
and the `long_options` table.  `oHelp0` is the value `0` that
`getopt_long` returns for `--help`, whose table entry is
`{"help", no_argument, NULL, 0}` (a null `flag` pointer with `val = 0`);
`oErr` is the `'?'` return for an unknown option or a missing required
argument. -/
inductive Opt where
  | oD (a : String)
  | oI (a : String)
  | oS
  | oH
  | oHelp0
  | oErr
deriving DecidableEq, Repr

/-- Processing of one cluster of short options (one argv word beginning
with `-`), given the following argv word if any.  `'d'` and `'i'` take a
required argument: the rest of the cluster if non-empty, otherwise the
next argv word (the Bool records that it was consumed), otherwise `'?'`.
`'s'` and `'h'` take none; any other character yields `'?'`. -/
def scanShort : List Char → Option String → List Opt × Bool
  | [], _ => ([], false)
  | c :: cs, next =>
    if c = 'd' ∨ c = 'i' then
      let mk := fun (a : String) => if c = 'd' then Opt.oD a else Opt.oI a
      if cs ≠ [] then ([mk (String.mk cs)], false)
      else match next with
        | some a => ([mk a], true)
        | none => ([Opt.oErr], false)
    else
      let o := if c = 's' then Opt.oS else if c = 'h' then Opt.oH else Opt.oErr
      let (os, consumed) := scanShort cs next
      (o :: os, consumed)

/-- Processing of one long option word `--body`, where `body` is the
word's character list with the leading `--` removed, given the following
argv word if any.  The names come from the `long_options` table;
`database` and `insert` require an argument (`--name=val` or the next
word, the Bool recording that the next word was consumed), `select` and
`help` take none (a `--name=val` form for them is an error).  Exact name
matching is modelled (glibc's unambiguous-abbreviation matching is not
exercised by any claim). -/
def scanLong (body : List Char) (next : Option String) : List Opt × Bool :=
  let n := body.takeWhile (fun c => c ≠ '=')
  match body.dropWhile (fun c => c ≠ '=') with
  | [] =>
    if n = ("database").toList ∨ n = ("insert").toList then
      match next with
      | some a => ([if n = ("database").toList then Opt.oD a else Opt.oI a], true)
      | none => ([Opt.oErr], false)
    else if n = ("select").toList then ([Opt.oS], false)
    else if n = ("help").toList then ([Opt.oHelp0], false)
    else ([Opt.oErr], false)
  | _ :: v =>
    if n = ("database").toList then ([Opt.oD (String.mk v)], false)
    else if n = ("insert").toList then ([Opt.oI (String.mk v)], false)
    else ([Opt.oErr], false)

/-- Classification of one argv word by `getopt_long`: the word `--` ends
option scanning; a word beginning `--` is a long option; a word beginning
`-` (other than `-` alone) is a cluster of short options; anything else
is a non-option argument (glibc permutes those past the options). -/
inductive WordScan where
  | stop
  | nonOption
  | opts (os : List Opt) (consumedNext : Bool)

/-- Scan one argv word, given the following argv word if any. -/
def scanWord (w : String) (next : Option String) : WordScan :=
  match w.toList with
  | ['-', '-'] => WordScan.stop
  | '-' :: '-' :: cs => WordScan.opts (scanLong cs next).1 (scanLong cs next).2
  | '-' :: c :: cs => WordScan.opts (scanShort (c :: cs) next).1 (scanShort (c :: cs) next).2
  | _ => WordScan.nonOption

/-- The whole sequence of values `getopt_long` hands to the parse loop,
in order, for the given argument vector (`argv` without the program
name). -/
def getoptAll : List String → List Opt
  | [] => []
  | [w] =>
    match scanWord w none with
    | WordScan.stop => []
    | WordScan.nonOption => []
    | WordScan.opts os _ => os
  | w :: w2 :: rest =>
    match scanWord w (some w2) with
    | WordScan.stop => []
    | WordScan.nonOption => getoptAll (w2 :: rest)
    | WordScan.opts os true => os ++ getoptAll rest
    | WordScan.opts os false => os ++ getoptAll (w2 :: rest)

/-- The numeric value of a list of decimal digit characters
(`'0'`–`'9'`), most significant first. -/
def digitsToNat (cs : List Char) : Nat :=
  cs.foldl (fun a c => a * 10 + (c.toNat - 48)) 0

/-- `std::atoi`: skip leading whitespace, accept an optional sign, then
an initial run of decimal digits; return `0` when no digits follow. -/
def atoi (s : String) : Int :=
  let cs := s.toList.dropWhile (fun c => c = ' ' ∨ c = '\t' ∨ c = '\n' ∨ c = '\r')
  match cs with
  | '-' :: t => -(digitsToNat (t.takeWhile Char.isDigit) : Int)
  | '+' :: t => (digitsToNat (t.takeWhile Char.isDigit) : Int)
  | t => (digitsToNat (t.takeWhile Char.isDigit) : Int)

/-- The hint printed by `usage(EXIT_SUCCESS)` (to `stderr`). -/
def usageHint : String :=
  "Try \x60soci-test --help\x27 for more information.\n"

/-- The full usage text printed by `usage` with a non-zero status, via
`std::printf` (hence to `stdout`). -/
def usageText : String :=
  "Usage: soci-test -d NAME [OPTION] RECORDS\n" ++
  "Test client for SQLite3 using SOCI.\n\n" ++
  "Mandatory arguments to long options are mandatory for short options too.\n" ++
  "  -d, --database         selects the database to work with\n" ++
  "  -i, --insert=n         insert n records into database NAME\n" ++
  "  -s, --select           select all records in database NAME\n\n" ++
  "Arguments:\n" ++
  "  NAME                   The name of the database to work with\n" ++
  "  RECORDS                Positive number of records to work with\n\n" ++
  "Written by Jeremy Fonseca for Gotlim.\n"

/-- The `usage` function: the stream written to and the text written.
`usage(status)` then calls `exit(status)`.  With status `EXIT_SUCCESS`
it prints the short hint to `stderr`; with any other status it prints
the full usage text to `stdout` (`std::printf`). -/
def usage (status : Nat) : OutStream × String :=
  if status = 0 then (OutStream.stderr, usageHint)
  else (OutStream.stdout, usageText)

/-- The global mode flags (`struct program_mode`). -/
structure ProgramMode where
  insert_mode : Bool := false
  select_mode : Bool := false
deriving DecidableEq, Repr

/-- The mutable state of `main`'s option-parsing loop. -/
structure ParseState where
  x : ProgramMode := {}
  records : Int := 0
  db_name : String := ""
deriving DecidableEq, Repr

/-- The initial parse state (`program_mode x; int records{}; std::string
db_name{};`). -/
def initState : ParseState := {}

/-- The `while (getopt_long ...)` loop body: `'?'` and `'h'` both call
`usage(EXIT_FAILURE)` (modelled as `Except.error 1`); `'d'` stores the
argument in `db_name`; `'i'` sets `insert_mode` and `records =
std::atoi(optarg)`; `'s'` sets `select_mode`; the value `0` returned for
`--help` matches no `case` in the `switch` and is ignored. -/
def procOpts : List Opt → ParseState → Except Nat ParseState
  | [], s => Except.ok s
  | o :: os, s =>
    match o with
    | Opt.oErr => Except.error 1
    | Opt.oH => Except.error 1
    | Opt.oD a => procOpts os { s with db_name := a }
    | Opt.oI a => procOpts os { s with x := { s.x with insert_mode := true }, records := atoi a }
    | Opt.oS => procOpts os { s with x := { s.x with select_mode := true } }
    | Opt.oHelp0 => procOpts os s

/-- The file name handed to the session constructor:
`db_name + ".db"` (line 138). -/
def sessionFile (db_name : String) : String := db_name ++ ".db"

/-- Whether a `-d` or `--database` option occurs in the option sequence. -/
def hasDbOpt (os : List Opt) : Bool :=
  os.any (fun o => match o with | Opt.oD _ => true | _ => false)

/-- How `main` terminates before any database work, or that it proceeds
to open the session.  `usageExit st` means `usage(st)` ran, printing
`(usage st).2` to `(usage st).1` and exiting with status `st`;
`proceed f x r` means the program reached the `soci::session` constructor
for file `f` with mode flags `x` and `records = r`. -/
inductive MainResult where
  | usageExit (status : Nat)
  | proceed (dbFile : String) (x : ProgramMode) (records : Int)
deriving DecidableEq, Repr

/-- `main` up to the session constructor, as a function of the argument
vector (without the program name, so `argc == 1` is `args = []`): run the
option loop; exit `usage(EXIT_FAILURE)` if `insert_mode` with
`records < 1`; exit `usage(EXIT_SUCCESS)` if there were no arguments;
otherwise proceed on the file `db_name + ".db"`. -/
def runMain (args : List String) : MainResult :=
  match procOpts (getoptAll args) initState with
  | Except.error st => MainResult.usageExit st
  | Except.ok s =>
    if s.x.insert_mode ∧ s.records < 1 then MainResult.usageExit 1
    else if args = [] then MainResult.usageExit 0
    else MainResult.proceed (sessionFile s.db_name) s.x s.records

/-- The two diagnostics printed when `sql.is_connected()` is false
(lines 142–143): `std::fprintf(stderr, ...)` and `std::cerr << ...`,
followed by `exit(EXIT_FAILURE)`. -/
def connectFailMsgs (db_name : String) : List (OutStream × String) :=
  [(OutStream.stderr, "soci-test: could not connect to database " ++ db_name ++ ".\n"),
   (OutStream.stderr, "Could not connect to database.\n")]

/-- The exit status after a failed connection: `EXIT_FAILURE`. -/
def connectFailExitStatus : Nat := 1

/-- One record of the `exam` table (`struct exam_t`).  The `double`
`price` is modelled as an exact rational; `id` is the `uint64_t`
identifier, `is_edited`/`is_deleted` the `unsigned short` flags. -/
structure exam_t where
  id : Nat
  name : String
  price : ℚ
  is_edited : Nat
  is_deleted : Nat
deriving DecidableEq, Repr

/-- Whether every character of the list is a decimal digit. -/
def allDigits (cs : List Char) : Bool := cs.all Char.isDigit

/-- `std::cin >> exam.is_edited` / `>> exam.is_deleted` conversion of one
interactive token into an `unsigned short`: an optional `+` sign followed
by decimal digits, reduced modulo 2^16; any other token fails the
extraction.  (The stream extraction is modelled on whole tokens: a token
converts iff it is entirely a plain decimal numeral, which covers every
input any claim exercises.) -/
def parseUShort (s : String) : Option Nat :=
  let cs := match s.toList with
    | '+' :: t => t
    | t => t
  if cs ≠ [] ∧ allDigits cs then some (digitsToNat cs % 65536) else none

/-- Conversion of an unsigned decimal numeral, with an optional fraction
part, into an exact rational. -/
def parseUnsignedDecimal (cs : List Char) : Option ℚ :=
  let a := cs.takeWhile (fun c => c ≠ '.')
  match cs.dropWhile (fun c => c ≠ '.') with
  | [] =>
    if a ≠ [] ∧ allDigits a then some ((digitsToNat a : ℚ))
    else none
  | _ :: b =>
    if (a ≠ [] ∨ b ≠ []) ∧ allDigits a ∧ allDigits b then
      some ((digitsToNat a : ℚ) + (digitsToNat b : ℚ) / ((10 : ℚ) ^ b.length))
    else none

/-- `std::cin >> exam.price` conversion of one interactive token into a
`double`: an optional sign followed by a decimal numeral with an optional
fraction part; any other token fails the extraction.  Values are exact
rationals (no claim depends on binary rounding), and extraction is
modelled on whole tokens as for `parseUShort`. -/
def parseDouble (s : String) : Option ℚ :=
  match s.toList with
  | '-' :: t => (parseUnsignedDecimal t).map (fun q => -q)
  | '+' :: t => parseUnsignedDecimal t
  | t => parseUnsignedDecimal t

/-- The four raw interactive inputs consumed by one iteration of the
insert loop: the `std::getline` line for the name and the three
whitespace-delimited tokens for price and the two flags. -/
structure IterInput where
  nameLine : String
  priceTok : String
  editedTok : String
  deletedTok : String
deriving DecidableEq, Repr

/-- The indeterminate initial contents of the uninitialized members of
`exam_t exam;` (the C++ object is declared without an initializer, so a
member that no extraction writes keeps an indeterminate value). -/
structure ExamJunk where
  price0 : ℚ
  edited0 : Nat
  deleted0 : Nat
deriving DecidableEq, Repr

/-- All three numeric tokens of an iteration convert successfully. -/
def validInput (inp : IterInput) : Bool :=
  (parseDouble inp.priceTok).isSome && (parseUShort inp.editedTok).isSome &&
    (parseUShort inp.deletedTok).isSome

/-- The field values of `exam` after the four reads of one iteration,
under the C++11 extraction contract: a conversion that runs and fails
writes `0` to its target and sets `failbit`; once `failbit` is set the
later extractions of the iteration do not run, leaving their targets'
indeterminate initial values.  Returns (name, price, is_edited,
is_deleted). -/
def readFields (junk : ExamJunk) (inp : IterInput) : String × ℚ × Nat × Nat :=
  match parseDouble inp.priceTok with
  | none => (inp.nameLine, 0, junk.edited0, junk.deleted0)
  | some p =>
    match parseUShort inp.editedTok with
    | none => (inp.nameLine, p, 0, junk.deleted0)
    | some e =>
      match parseUShort inp.deletedTok with
      | none => (inp.nameLine, p, e, 0)
      | some d => (inp.nameLine, p, e, d)

/-- The record built and inserted by iteration `i` of the insert loop
(1-based), where `count0` is the row count read before the loop:
`exam.id = i + examn_count`, the other fields from the interactive
reads.  The parameterized insert is executed unconditionally
(`st.execute(true)`), so the built record always reaches the table. -/
def insertIter (count0 : Nat) (i : Nat) (junk : ExamJunk) (inp : IterInput) : exam_t :=
  { id := i + count0,
    name := (readFields junk inp).1,
    price := (readFields junk inp).2.1,
    is_edited := (readFields junk inp).2.2.1,
    is_deleted := (readFields junk inp).2.2.2 }

/-- The rows appended by the whole insert loop: iteration `j+1` consumes
the `j`-th element of the interactive input list. -/
def insertedRows (count0 : Nat) (inputs : List (ExamJunk × IterInput)) : List exam_t :=
  inputs.enum.map (fun p => insertIter count0 (p.1 + 1) p.2.1 p.2.2)

/-- The whole insert mode: `select count(*) from exam` is read once into
`examn_count` (the length of the table before the loop), then the loop
appends one row per iteration. -/
def runInsertMode (table : List exam_t) (inputs : List (ExamJunk × IterInput)) :
    List exam_t :=
  table ++ insertedRows table.length inputs

/-- SOCI column data types relevant to the reporter's `switch` on
`properties.get_data_type()`: `dt_double`, `dt_string`, `dt_integer`, and
a stand-in for any other tag (which matches no `case`). -/
inductive DType where
  | dtDouble
  | dtString
  | dtInteger
  | dtOther
deriving DecidableEq, Repr

/-- A cell value as fetched from a row (`r->get<double>`,
`r->get<std::string>`, `r->get<int>`). -/
inductive CellVal where
  | vDouble (q : ℚ)
  | vString (s : String)
  | vInt (n : Int)
  | vOther
deriving DecidableEq, Repr

/-- The column metadata of the `exam` table as SOCI's sqlite3 backend
reports it for `create table if not exists exam(id integer, name text,
price real, is_edited integer, is_deleted integer)`: declared `integer`
columns are `dt_integer`, `text` is `dt_string`, `real` is `dt_double`. -/
def examColumns : List (String × DType) :=
  [("id", DType.dtInteger), ("name", DType.dtString), ("price", DType.dtDouble),
   ("is_edited", DType.dtInteger), ("is_deleted", DType.dtInteger)]

/-- The cell values of one `exam` row, in column order. -/
def rowCells (e : exam_t) : List CellVal :=
  [CellVal.vInt (e.id : Int), CellVal.vString e.name, CellVal.vDouble e.price,
   CellVal.vInt (e.is_edited : Int), CellVal.vInt (e.is_deleted : Int)]

/-- `std::setw(width)` followed by `<<` of a string under the default
right-adjust and space fill: pad on the left up to `width` when the text
is shorter, print the text unchanged otherwise. -/
def setwPad (width : Int) (s : String) : String :=
  if (s.length : Int) < width then
    String.mk (List.replicate (width - (s.length : Int)).toNat ' ') ++ s
  else s

/-- Textual rendering of a `double` by `operator<<` with default stream
settings.  No claim depends on the digit string itself (the round-trip
claim is stated on the stored values), so the rendering is abstracted as
the canonical rendering of the exact rational value. -/
def showDouble (q : ℚ) : String :=
  if q.den = 1 then toString q.num
  else toString q.num ++ "/" ++ toString q.den

/-- One cell of the row display: the `switch` on the declared data type
inserts the value under `std::setw(width)` into a fresh stringstream for
`dt_double`, `dt_string` and `dt_integer`; any other tag matches no
`case`, so the stringstream stays empty and nothing is printed for that
cell. -/
def renderCell (width : Int) : CellVal → String
  | CellVal.vDouble q => setwPad width (showDouble q)
  | CellVal.vString s => setwPad width s
  | CellVal.vInt n => setwPad width (toString n)
  | CellVal.vOther => ""

/-- The column metadata the reporter sees: the first query
(`select * from exam, into(r)`) fills `r` with one representative row, so
for a non-empty table `r.size()` is 5 and the metadata loop collects the
`exam` columns; for an empty table `r` stays empty (`r.size() == 0`) and
the loop collects nothing. -/
def selectColumns (table : List exam_t) : List (String × DType) :=
  if table.isEmpty then [] else examColumns

/-- The metadata loop's running maximum: `max_col_length` starts at
`std::numeric_limits<int32_t>::min()` and each column name length
replaces it when strictly greater. -/
def maxColLength (cols : List (String × DType)) : Int :=
  cols.foldl
    (fun m c => if ((c.1.length : Int)) > m then ((c.1.length : Int)) else m)
    (-2147483648)

/-- `int width = max_col_length + 2;` for the given table. -/
def selectWidth (table : List exam_t) : Int :=
  maxColLength (selectColumns table) + 2

/-- The header line: each collected column name under
`std::setw(width)`, then `'\n'`. -/
def headerLine (width : Int) (cols : List (String × DType)) : String :=
  String.join (cols.map (fun c => setwPad width c.1)) ++ "\n"

/-- One displayed row: each cell rendered by the type `switch`, then
`std::putchar(10)`. -/
def rowLine (width : Int) (e : exam_t) : String :=
  String.join ((rowCells e).map (renderCell width)) ++ "\n"

/-- Everything select mode writes to `stdout`: the header line followed
by one line per row of the second (`rowset`) query over the same
table. -/
def selectOutput (table : List exam_t) : String :=
  headerLine (selectWidth table) (selectColumns table) ++
    String.join (table.map (rowLine (selectWidth table)))

/-!
## Helper lemmas
-/

theorem procOpts_db_name (os : List Opt) (s s' : ParseState)
    (hnd : hasDbOpt os = false) (h : procOpts os s = Except.ok s') :
    s'.db_name = s.db_name := by
  induction os generalizing s with
  | nil =>
    simp only [procOpts, Except.ok.injEq] at h
    rw [← h]
  | cons o os ih =>
    match o with
    | Opt.oErr => simp [procOpts] at h
    | Opt.oH => simp [procOpts] at h
    | Opt.oD a => simp [hasDbOpt] at hnd
    | Opt.oI a =>
      have hnd' : hasDbOpt os = false := by simpa [hasDbOpt] using hnd
      exact ih { s with x := { s.x with insert_mode := true }, records := atoi a } hnd' h
    | Opt.oS =>
      have hnd' : hasDbOpt os = false := by simpa [hasDbOpt] using hnd
      exact ih { s with x := { s.x with select_mode := true } } hnd' h
    | Opt.oHelp0 =>
      have hnd' : hasDbOpt os = false := by simpa [hasDbOpt] using hnd
      exact ih s hnd' h

theorem procOpts_err (os : List Opt) (s : ParseState) (h : Opt.oErr ∈ os) :
    procOpts os s = Except.error 1 := by
  induction os generalizing s with
  | nil => simp at h
  | cons o os ih =>
    match o with
    | Opt.oErr => rfl
    | Opt.oH => rfl
    | Opt.oD a =>
      have h' : Opt.oErr ∈ os := by simpa using h
      exact ih _ h'
    | Opt.oI a =>
      have h' : Opt.oErr ∈ os := by simpa using h
      exact ih _ h'
    | Opt.oS =>
      have h' : Opt.oErr ∈ os := by simpa using h
      exact ih _ h'
    | Opt.oHelp0 =>
      have h' : Opt.oErr ∈ os := by simpa using h
      exact ih _ h'

theorem setwPad_length (w : Int) (s : String) (h : (s.length : Int) ≤ w) :
    (setwPad w s).length = w.toNat := by
  unfold setwPad
  split
  · rename_i hlt
    rw [String.length_append]
    have : ((String.mk (List.replicate (w - (s.length : Int)).toNat ' '))).length =
        (w - (s.length : Int)).toNat := by
      simp
    rw [this]
    omega
  · rename_i hge
    omega

theorem setwPad_eq_pad_append (w : Int) (s : String) :
    ∃ k, setwPad w s = String.mk (List.replicate k ' ') ++ s := by
  unfold setwPad
  split
  · exact ⟨_, rfl⟩
  · refine ⟨0, ?_⟩
    simp only [List.replicate_zero]
    have : String.mk [] ++ s = s := by
      apply String.ext
      simp [String.append]
    rw [this]

theorem insertedRows_length (c : Nat) (inputs : List (ExamJunk × IterInput)) :
    (insertedRows c inputs).length = inputs.length := by
  simp [insertedRows]

theorem insertedRows_map_id (c : Nat) (inputs : List (ExamJunk × IterInput)) :
    (insertedRows c inputs).map exam_t.id =
      (List.range inputs.length).map (fun j => (j + 1) + c) := by
  apply List.ext_getElem
  · simp [insertedRows]
  · intro n h1 h2
    simp [insertedRows, insertIter, List.getElem_enum]

theorem insertIter_mem (c : Nat) (inputs : List (ExamJunk × IterInput)) (j : Nat)
    (hj : j < inputs.length) :
    insertIter c (j + 1) (inputs.get ⟨j, hj⟩).1 (inputs.get ⟨j, hj⟩).2 ∈
      insertedRows c inputs := by
  refine List.mem_map.mpr ⟨(j, inputs.get ⟨j, hj⟩), ?_, rfl⟩
  rw [List.mk_mem_enum_iff_getElem?]
  simp [List.getElem?_eq_getElem hj]

/-!
## Claims
-/

/-- C1: for every invocation `-d NAME -i N` with `N` valid interactive
inputs, the insert loop reads the initial row count once (the length of
the table before the loop), then inserts exactly `N` new rows into the
`exam` table whose `id` values are the consecutive integers
`initial_count + 1 .. initial_count + N` (the id of iteration `i` is
`i + initial_count`). -/
theorem insert_loop_consecutive_ids (table : List exam_t)
    (inputs : List (ExamJunk × IterInput))
    (_hval : ∀ p ∈ inputs, validInput p.2 = true) :
    ∃ newRows : List exam_t,
      runInsertMode table inputs = table ++ newRows ∧
      newRows.length = inputs.length ∧
      newRows.map exam_t.id =
        (List.range inputs.length).map (fun j => (j + 1) + table.length) :=
  ⟨insertedRows table.length inputs, rfl, insertedRows_length _ _,
    insertedRows_map_id _ _⟩

theorem insert_loop_consecutive_ids_witness :
    (∀ p ∈ [((⟨0, 0, 0⟩ : ExamJunk), (⟨"algebra", "1.5", "1", "0"⟩ : IterInput))],
        validInput p.2 = true) ∧
    ∃ newRows : List exam_t,
      runInsertMode []
          [((⟨0, 0, 0⟩ : ExamJunk), (⟨"algebra", "1.5", "1", "0"⟩ : IterInput))] =
        [] ++ newRows ∧
      newRows.length = 1 ∧
      newRows.map exam_t.id = (List.range 1).map (fun j => (j + 1) + 0) :=
  ⟨by decide, insert_loop_consecutive_ids [] _ (by decide)⟩

/-- C2 counterexample: the invocation `-s` requests select mode without
supplying `-d`, yet the program proceeds to open a session on the
database file `.db` rather than refusing to operate. -/
theorem select_without_database_proceeds_cex :
    runMain ["-s"] =
      MainResult.proceed (".db") { insert_mode := false, select_mode := true } 0 :=
  rfl

/-- C2 (amended): the `-d` option is not enforced: an invocation that
requests insert or select without any `-d`/`--database` option still
proceeds, operating on the database file named exactly `.db`. -/
theorem no_database_option_proceeds_on_dot_db (args : List String)
    (hnd : hasDbOpt (getoptAll args) = false)
    (f : String) (x : ProgramMode) (r : Int)
    (h : runMain args = MainResult.proceed f x r) :
    f = ".db" := by
  unfold runMain at h
  split at h
  · simp at h
  · rename_i s hp
    split at h
    · simp at h
    · split at h
      · simp at h
      · simp only [MainResult.proceed.injEq] at h
        have hdb : s.db_name = initState.db_name := procOpts_db_name _ _ _ hnd hp
        rw [← h.1, hdb]
        rfl

theorem no_database_option_proceeds_on_dot_db_witness :
    hasDbOpt (getoptAll ["-s"]) = false ∧ (".db" : String) = ".db" :=
  ⟨by decide, no_database_option_proceeds_on_dot_db ["-s"] (by decide)
    (".db") { insert_mode := false, select_mode := true } 0 rfl⟩

/-- C3: the short form `-h` prints the usage text and exits with status
1, but the long form `--help` does not: its `long_options` entry carries
`val = 0`, which matches no `case` of the `switch`, so `--help` is
silently ignored and the program proceeds to open the database `.db`
(with the empty default name).  This contradicts the documented
behaviour `-h, --help    usage and exit(1)`. -/
theorem help_long_option_ignored :
    runMain ["--help"] =
      MainResult.proceed (".db") { insert_mode := false, select_mode := false } 0 ∧
    runMain ["-h"] = MainResult.usageExit 1 ∧
    usage 1 = (OutStream.stdout, usageText) :=
  ⟨rfl, rfl, rfl⟩

/-- C4 counterexample: on the unknown option `-z` the program does exit
via `usage(EXIT_FAILURE)`, but the usage text is printed to standard
output (`std::printf`), not to standard error as the claim states. -/
theorem unknown_option_usage_stream_cex :
    runMain ["-z"] = MainResult.usageExit 1 ∧
    (usage 1).1 = OutStream.stdout ∧ OutStream.stdout ≠ OutStream.stderr :=
  ⟨rfl, rfl, by decide⟩

/-- C4 (amended): for every invocation containing an unknown option or
an option missing its required value, the program prints the usage text
to standard output and exits with failure (non-zero) status. -/
theorem bad_option_usage_stdout_exit_failure (args : List String)
    (h : Opt.oErr ∈ getoptAll args) :
    runMain args = MainResult.usageExit 1 ∧
    usage 1 = (OutStream.stdout, usageText) ∧ (1 : Nat) ≠ 0 := by
  refine ⟨?_, rfl, by decide⟩
  unfold runMain
  rw [procOpts_err _ _ h]

theorem bad_option_usage_stdout_exit_failure_witness :
    Opt.oErr ∈ getoptAll ["--bogus"] ∧ runMain ["--bogus"] = MainResult.usageExit 1 :=
  ⟨by decide, (bad_option_usage_stdout_exit_failure ["--bogus"] (by decide)).1⟩

/-- C5: invoked with no arguments at all, the program calls
`usage(EXIT_SUCCESS)`, which prints the hint line to standard error and
exits with success status 0. -/
theorem no_arguments_usage_exit_success :
    runMain [] = MainResult.usageExit 0 ∧ usage 0 = (OutStream.stderr, usageHint) :=
  ⟨rfl, rfl⟩

/-- C6 counterexample: on connection failure the program prints two
diagnostic messages, but both (`std::fprintf(stderr, ...)` and
`std::cerr`) go to the standard error stream; none goes to standard
output as the claim states. -/
theorem connect_failure_streams_cex :
    (connectFailMsgs ("testdb")).map Prod.fst = [OutStream.stderr, OutStream.stderr] ∧
    OutStream.stderr ≠ OutStream.stdout ∧ connectFailExitStatus = 1 :=
  ⟨rfl, by decide, rfl⟩

/-- C6 (amended): on failure to connect to the database file, the
program prints two diagnostic messages, both to the standard error
stream, and exits with failure status. -/
theorem connect_failure_two_diagnostics_stderr (db_name : String) :
    (connectFailMsgs db_name).length = 2 ∧
    (connectFailMsgs db_name).map Prod.fst = [OutStream.stderr, OutStream.stderr] ∧
    connectFailExitStatus ≠ 0 :=
  ⟨rfl, rfl, by decide⟩

/-- C7: in select mode the column width is the maximum column-name
length plus 2 (for the `exam` columns the maximum is 10, from
`is_deleted`, so the width is 12); the header is one line of the column
names each right-justified to that width; each row's cells are printed
right-justified to the same width; and for an empty `exam` table the
program produces no output except the header line (which is then empty,
as there is no representative row to enumerate columns from). -/
theorem select_mode_format (table : List exam_t) :
    (table ≠ [] →
      selectWidth table = 12 ∧
      (∀ c ∈ selectColumns table, (c.1.length : Int) + 2 ≤ selectWidth table) ∧
      (∃ c ∈ selectColumns table, (c.1.length : Int) + 2 = selectWidth table)) ∧
    selectOutput table =
      String.join ((selectColumns table).map (fun c => setwPad (selectWidth table) c.1)) ++
        "\n" ++ String.join (table.map (rowLine (selectWidth table))) ∧
    (∀ e, rowLine (selectWidth table) e =
      String.join ((rowCells e).map (renderCell (selectWidth table))) ++ "\n") ∧
    (∀ s : String, (s.length : Int) ≤ selectWidth table →
      (setwPad (selectWidth table) s).length = (selectWidth table).toNat ∧
      ∃ k, setwPad (selectWidth table) s = String.mk (List.replicate k ' ') ++ s) ∧
    (table = [] →
      selectOutput table = headerLine (selectWidth table) (selectColumns table) ∧
      selectOutput table = "\n") := by
  refine ⟨?_, rfl, fun e => rfl, ?_, ?_⟩
  · intro hne
    have hc : selectColumns table = examColumns := by
      unfold selectColumns
      rw [if_neg]
      simpa using hne
    have hw : selectWidth table = 12 := by
      unfold selectWidth
      rw [hc]
      rfl
    rw [hw, hc]
    exact ⟨rfl, by decide, by decide⟩
  · intro s hs
    exact ⟨setwPad_length _ _ hs, setwPad_eq_pad_append _ _⟩
  · intro hnil
    subst hnil
    exact ⟨by decide, by decide⟩

theorem select_mode_format_witness :
    ([({ id := 1, name := "A", price := 1, is_edited := 0, is_deleted := 0 } : exam_t)] ≠
        ([] : List exam_t) ∧
      selectWidth
        [({ id := 1, name := "A", price := 1, is_edited := 0, is_deleted := 0 } : exam_t)] =
          12) ∧
    ((("name").length : Int) ≤
        selectWidth
          [({ id := 1, name := "A", price := 1, is_edited := 0, is_deleted := 0 } : exam_t)] ∧
      (setwPad
        (selectWidth
          [({ id := 1, name := "A", price := 1, is_edited := 0, is_deleted := 0 } : exam_t)])
        ("name")).length =
        (selectWidth
          [({ id := 1, name := "A", price := 1, is_edited := 0, is_deleted := 0 } : exam_t)]).toNat) ∧
    (([] : List exam_t) = [] ∧ selectOutput ([] : List exam_t) = "\n") :=
  ⟨⟨by decide,
      ((select_mode_format
        [({ id := 1, name := "A", price := 1, is_edited := 0, is_deleted := 0 } : exam_t)]).1
        (by decide)).1⟩,
    ⟨by decide,
      ((select_mode_format
        [({ id := 1, name := "A", price := 1, is_edited := 0, is_deleted := 0 } : exam_t)]).2.2.2.1
        ("name") (by decide)).1⟩,
    ⟨rfl, ((select_mode_format ([] : List exam_t)).2.2.2.2 rfl).2⟩⟩

/-- C8: round-trip — every record inserted via the insert loop from a
valid interactive input appears in the table that a subsequent select
reads, with exactly the entered name and the converted price and flag
values, and the select renders that row's cells from those same stored
values (the price as a `dt_double` cell holding the stored value, so any
difference is only in the floating-point formatting of the digits). -/
theorem insert_select_roundtrip (table : List exam_t)
    (inputs : List (ExamJunk × IterInput)) (junk : ExamJunk) (inp : IterInput)
    (hmem : (junk, inp) ∈ inputs) (hval : validInput inp = true) :
    ∃ e ∈ runInsertMode table inputs,
      e.name = inp.nameLine ∧
      parseDouble inp.priceTok = some e.price ∧
      parseUShort inp.editedTok = some e.is_edited ∧
      parseUShort inp.deletedTok = some e.is_deleted ∧
      rowCells e = [CellVal.vInt (e.id : Int), CellVal.vString inp.nameLine,
        CellVal.vDouble e.price, CellVal.vInt (e.is_edited : Int),
        CellVal.vInt (e.is_deleted : Int)] := by
  simp only [validInput, Bool.and_eq_true, Option.isSome_iff_exists] at hval
  obtain ⟨⟨⟨p, hp⟩, ed, he⟩, dd, hd⟩ := hval
  obtain ⟨j, hget⟩ := List.mem_iff_get.mp hmem
  refine ⟨insertIter table.length (j.1 + 1) junk inp, ?_, ?_, ?_, ?_, ?_, ?_⟩
  · unfold runInsertMode
    apply List.mem_append_right
    have hmm := insertIter_mem table.length inputs j.1 j.2
    have hget' : inputs.get ⟨j.1, j.2⟩ = (junk, inp) := hget
    rw [hget'] at hmm
    exact hmm
  · simp [insertIter, readFields, hp, he, hd]
  · simp [insertIter, readFields, hp, he, hd]
  · simp [insertIter, readFields, hp, he, hd]
  · simp [insertIter, readFields, hp, he, hd]
  · simp [insertIter, readFields, rowCells, hp, he, hd]

theorem insert_select_roundtrip_witness :
    ((⟨2, 3, 4⟩ : ExamJunk), (⟨"calculus", "2", "1", "0"⟩ : IterInput)) ∈
        [((⟨2, 3, 4⟩ : ExamJunk), (⟨"calculus", "2", "1", "0"⟩ : IterInput))] ∧
    validInput (⟨"calculus", "2", "1", "0"⟩ : IterInput) = true ∧
    ∃ e ∈ runInsertMode []
        [((⟨2, 3, 4⟩ : ExamJunk), (⟨"calculus", "2", "1", "0"⟩ : IterInput))],
      e.name = "calculus" ∧
      parseDouble ("2") = some e.price ∧
      parseUShort ("1") = some e.is_edited ∧
      parseUShort ("0") = some e.is_deleted ∧
      rowCells e = [CellVal.vInt (e.id : Int), CellVal.vString ("calculus"),
        CellVal.vDouble e.price, CellVal.vInt (e.is_edited : Int),
        CellVal.vInt (e.is_deleted : Int)] :=
  ⟨List.mem_singleton.mpr rfl, by decide,
    insert_select_roundtrip [] _ _ _ (List.mem_singleton.mpr rfl) (by decide)⟩

/-- C9: a malformed numeric token never surfaces an error and never
rolls anything back: the loop still appends exactly one row per
iteration (and the row built from any input is in the final table), and
the first conversion of an iteration that runs and fails writes a
zero-initialized value to its field — price 0 when the price token is
malformed, flag 0 when the earlier extractions succeeded and that flag's
token is malformed (a later extraction after a failure does not run at
all, per the stream's fail state). -/
theorem malformed_numeric_zero_no_rollback (table : List exam_t)
    (inputs : List (ExamJunk × IterInput)) (count0 i : Nat) (junk : ExamJunk)
    (inp : IterInput) :
    (runInsertMode table inputs).length = table.length + inputs.length ∧
    (∀ j (hj : j < inputs.length),
      insertIter table.length (j + 1) (inputs.get ⟨j, hj⟩).1 (inputs.get ⟨j, hj⟩).2 ∈
        runInsertMode table inputs) ∧
    (parseDouble inp.priceTok = none → (insertIter count0 i junk inp).price = 0) ∧
    ((∃ q, parseDouble inp.priceTok = some q) → parseUShort inp.editedTok = none →
      (insertIter count0 i junk inp).is_edited = 0) ∧
    ((∃ q, parseDouble inp.priceTok = some q) →
      (∃ n, parseUShort inp.editedTok = some n) → parseUShort inp.deletedTok = none →
      (insertIter count0 i junk inp).is_deleted = 0) := by
  refine ⟨?_, ?_, ?_, ?_, ?_⟩
  · simp [runInsertMode, insertedRows_length]
  · intro j hj
    unfold runInsertMode
    exact List.mem_append_right _ (insertIter_mem table.length inputs j hj)
  · intro hnone
    simp [insertIter, readFields, hnone]
  · intro hp hnone
    obtain ⟨q, hq⟩ := hp
    simp [insertIter, readFields, hq, hnone]
  · intro hp he hnone
    obtain ⟨q, hq⟩ := hp
    obtain ⟨n, hn⟩ := he
    simp [insertIter, readFields, hq, hn, hnone]

theorem malformed_numeric_zero_no_rollback_witness :
    parseDouble ("oops") = none ∧
    (insertIter 0 1 (⟨5, 6, 7⟩ : ExamJunk) (⟨"n", "oops", "1", "0"⟩ : IterInput)).price = 0 ∧
    (insertIter 0 1 (⟨5, 6, 7⟩ : ExamJunk) (⟨"n", "2.5", "x", "0"⟩ : IterInput)).is_edited = 0 ∧
    (insertIter 0 1 (⟨5, 6, 7⟩ : ExamJunk) (⟨"n", "2.5", "1", "y"⟩ : IterInput)).is_deleted = 0 ∧
    (runInsertMode []
      [((⟨5, 6, 7⟩ : ExamJunk), (⟨"n", "oops", "1", "0"⟩ : IterInput))]).length = 0 + 1 :=
  ⟨by decide,
    (malformed_numeric_zero_no_rollback [] [] 0 1 ⟨5, 6, 7⟩ ⟨"n", "oops", "1", "0"⟩).2.2.1
      (by decide),
    (malformed_numeric_zero_no_rollback [] [] 0 1 ⟨5, 6, 7⟩ ⟨"n", "2.5", "x", "0"⟩).2.2.2.1
      ⟨_, rfl⟩ (by decide),
    (malformed_numeric_zero_no_rollback [] [] 0 1 ⟨5, 6, 7⟩ ⟨"n", "2.5", "1", "y"⟩).2.2.2.2
      ⟨_, rfl⟩ ⟨_, rfl⟩ (by decide),
    (malformed_numeric_zero_no_rollback []
      [((⟨5, 6, 7⟩ : ExamJunk), (⟨"n", "oops", "1", "0"⟩ : IterInput))] 0 1 ⟨5, 6, 7⟩
      ⟨"n", "oops", "1", "0"⟩).1⟩

/-- C10 (implicit): when `-d` is omitted but insert or select mode is
requested, `db_name` keeps its default empty-string value through the
option loop, and the session is opened on the file named exactly `.db`
(empty name plus the `.db` suffix) instead of the invocation being
rejected. -/
theorem omitted_database_opens_dot_db (opts : List Opt) (s : ParseState)
    (hnd : hasDbOpt opts = false) (h : procOpts opts initState = Except.ok s)
    (_hmode : s.x.insert_mode = true ∨ s.x.select_mode = true) :
    s.db_name = "" ∧ sessionFile s.db_name = ".db" := by
  have hdb : s.db_name = initState.db_name := procOpts_db_name _ _ _ hnd h
  exact ⟨hdb, by rw [hdb]; rfl⟩

theorem omitted_database_opens_dot_db_witness :
    hasDbOpt [Opt.oI ("2")] = false ∧
    procOpts [Opt.oI ("2")] initState =
      Except.ok { x := { insert_mode := true, select_mode := false },
                  records := 2, db_name := "" } ∧
    sessionFile ("") = ".db" :=
  ⟨by decide, rfl,
    (omitted_database_opens_dot_db [Opt.oI ("2")]
      { x := { insert_mode := true, select_mode := false }, records := 2, db_name := "" }
      (by decide) rfl (Or.inl rfl)).2⟩

end SociTest
